import Mathlib

/-!
Shallow embedding of the donizo pricing engine core
(`app/services/material_service.py`, `app/services/pricing_service.py`,
`app/services/feedback_service.py`, constants from `app/config.py`,
record shapes from `app/models.py` and `app/database.py`).

Modelling conventions:
* Python floats are modelled as rationals (`ℚ`); every constant in the
  configuration is an exact decimal, so no rounding is lost.
* Python strings are modelled as Lean `String`; `x in s` is `strContains`,
  `s.lower()` is `pyLower` (exact on the ASCII fragment, which is all the
  code's fixed keyword tables use), `s.replace(a, b)` is `pyReplace`.
* `Optional[str]` arguments that the code tests for truthiness are
  `Option String`, with the empty string also counting as falsy.
* The embedding provider is an external collaborator (spec scope): the
  similarity score each candidate receives is abstracted as a function
  argument, and theorems quantify over it.
* `list.sort(key=..., reverse=True)` is a stable sort by descending
  confidence; it is embedded as `List.mergeSort` with the corresponding
  Boolean relation, which is stable with the same tie-breaking.
-/

namespace Donizo

/-- Clamp to the unit interval, as `max(0.0, min(1.0, x))` in the source. -/
def clamp01 (x : ℚ) : ℚ := max 0 (min 1 x)

/-- Substring test on character lists: Python's `needle in hay`. -/
def subOccurs (needle : List Char) : List Char → Bool
  | [] => needle.isEmpty
  | c :: rest => needle.isPrefixOf (c :: rest) || subOccurs needle rest

/-- Python's `needle in hay` for strings. -/
def strContains (hay needle : String) : Bool :=
  subOccurs needle.data hay.data

/-- Python's `s.lower()`, exact on the ASCII fragment. -/
def pyLower (s : String) : String := ⟨s.data.map Char.toLower⟩

/-- Python's `s.replace(needle, repl)` on character lists, for a non-empty
needle (all call sites use the fixed needles "1 day" and "2 days"). The
fuel argument only serves structural recursion; one unit per consumed
character is always enough. -/
def replaceSub (needle repl : List Char) : ℕ → List Char → List Char
  | _, [] => []
  | 0, l => l
  | fuel + 1, c :: rest =>
    if needle.isPrefixOf (c :: rest) && !needle.isEmpty then
      repl ++ replaceSub needle repl fuel (rest.drop (needle.length - 1))
    else
      c :: replaceSub needle repl fuel rest

/-- Python's `s.replace(needle, repl)` for strings. -/
def pyReplace (s needle repl : String) : String :=
  ⟨replaceSub needle.data repl.data s.data.length s.data⟩

/-- Leading decimal-digit run converted to a number. -/
def digitRunToNat (cs : List Char) : ℕ :=
  cs.foldl (fun n c => 10 * n + (c.toNat - 48)) 0

/-- First maximal digit run of a string, as `re.findall(r'\d+', s)[0]`.
`none` when the string holds no digit (the `IndexError` path). -/
def firstDigitRun : List Char → Option (List Char)
  | [] => none
  | c :: rest =>
    if c.isDigit then some (c :: rest.takeWhile Char.isDigit)
    else firstDigitRun rest

/-! ### Configuration constants (`app/config.py`) -/

/-- `Settings.regional_multipliers`. -/
def regionalMultipliers : List (String × ℚ) :=
  [("Île-de-France", 115/100),
   ("Provence-Alpes-Côte d'Azur", 110/100),
   ("Auvergne-Rhône-Alpes", 105/100),
   ("Occitanie", 1),
   ("Nouvelle-Aquitaine", 95/100),
   ("Hauts-de-France", 90/100),
   ("Grand Est", 95/100),
   ("Bourgogne-Franche-Comté", 90/100),
   ("Centre-Val de Loire", 95/100),
   ("Normandie", 90/100),
   ("Bretagne", 95/100),
   ("Pays de la Loire", 95/100),
   ("Corse", 120/100)]

/-- `Settings.base_margin`. -/
def baseMargin : ℚ := 25/100

/-- `Settings.vat_renovation`. -/
def vatRenovation : ℚ := 10/100

/-- `Settings.vat_new_build`. -/
def vatNewBuild : ℚ := 20/100

/-- `Settings.confidence_weights` in table order. -/
def semanticWeight : ℚ := 40/100
def regionalWeight : ℚ := 25/100
def priceWeight : ℚ := 20/100
def vendorWeight : ℚ := 15/100

/-- `Settings.default_labor_rates`. -/
def laborRates : List (String × ℚ) :=
  [("tiling", 45), ("painting", 35), ("plumbing", 55),
   ("electrical", 50), ("carpentry", 40), ("general", 40)]

/-! ### Records (`app/database.py` rows and `app/models.py` response types),
restricted to the fields the core logic reads. -/

/-- A `materials` row as read by the services. `region` is a non-null
column; `vendor`, `source_url` and `quality_score` are nullable. -/
structure MaterialRec where
  material_name : String
  description : String
  unit_price : ℚ
  unit : String
  region : String
  vendor : Option String
  quality_score : Option ℤ
  source_url : Option String
deriving Repr, DecidableEq

/-- `ConfidenceTier` from `app/models.py`. -/
inductive ConfidenceTier where
  | high
  | medium
  | low
deriving Repr, DecidableEq

/-- `MaterialPriceResponse` from `app/models.py`: the search response type.
It carries the similarity score and the discrete tier; it has no field for
the continuous combined confidence score. -/
structure MaterialPriceResponse where
  material_name : String
  description : String
  unit_price : ℚ
  unit : String
  region : String
  similarity_score : ℚ
  confidence_tier : ConfidenceTier
  source : String
  vendor : Option String
  quality_score : Option ℤ
deriving Repr, DecidableEq

/-! ### Confidence Engine (`material_service._calculate_confidence_score`) -/

/-- The regional sub-score before weighting (lines 154-159 of
`material_service.py`); the guard `if region and material.region` treats
an absent or empty string as no region. -/
def regionalScoreRaw (requested : Option String) (materialRegion : String) : ℚ :=
  match requested with
  | none => 0
  | some r =>
    if r = "" ∨ materialRegion = "" then 0
    else if pyLower r = pyLower materialRegion then 1
    else if strContains (pyLower materialRegion) (pyLower r)
         || strContains (pyLower r) (pyLower materialRegion) then 7/10
    else 0

/-- `material_service._validate_price_range`: flat plausibility bands.
Python's chained comparisons `0.1 <= p <= 1000.0` are conjunctions. -/
def validatePriceRange (p : ℚ) : ℚ :=
  if 1/10 ≤ p ∧ p ≤ 1000 then 1
  else if 1/100 ≤ p ∧ p ≤ 10000 then 7/10
  else 3/10

/-- The static reliability table of `material_service._get_vendor_reliability`. -/
def reliableVendors : List (String × ℚ) :=
  [("leroy merlin", 9/10), ("castorama", 85/100),
   ("brico depot", 8/10), ("weldom", 75/100)]

/-- `material_service._get_vendor_reliability`: case-insensitive substring
lookup against the static table, default 0.5 for an absent, empty or
unknown vendor. -/
def getVendorReliability (vendor : Option String) : ℚ :=
  match vendor with
  | none => 1/2
  | some v =>
    if v = "" then 1/2
    else
      match reliableVendors.find? (fun p => strContains (pyLower v) p.1) with
      | some p => p.2
      | none => 1/2

/-- `material_service._calculate_confidence_score`: weighted sum of the four
sub-scores, clamped to the unit interval. -/
def calculateConfidenceScore (m : MaterialRec) (similarity : ℚ)
    (region : Option String) : ℚ :=
  let semantic := similarity * semanticWeight
  let regional := regionalScoreRaw region m.region * regionalWeight
  let price := validatePriceRange m.unit_price * priceWeight
  let vendor := getVendorReliability m.vendor * vendorWeight
  clamp01 (semantic + regional + price + vendor)

/-- `material_service._get_confidence_tier`. -/
def getConfidenceTier (c : ℚ) : ConfidenceTier :=
  if c ≥ 8/10 then .high
  else if c ≥ 6/10 then .medium
  else .low

/-! ### Material Ranker (`material_service.search_materials`)

The similarity score of a candidate depends on the external embedding
provider (cosine similarity against a stored vector, or the text fallback),
so it is abstracted as a function argument `sim`; every ranking property is
proved for an arbitrary such function. -/

/-- One entry of the internal `ranked_materials` list (lines 83-87 of
`material_service.py`): the candidate with its similarity and confidence. -/
structure RankedMaterial where
  material : MaterialRec
  similarity_score : ℚ
  confidence_score : ℚ
deriving Repr, DecidableEq

/-- Scoring pass of `search_materials` (lines 73-87): each stored candidate
receives a similarity score and a confidence score. -/
def rankCandidates (sim : MaterialRec → ℚ) (region : Option String)
    (candidates : List MaterialRec) : List RankedMaterial :=
  candidates.map fun m =>
    { material := m
      similarity_score := sim m
      confidence_score := calculateConfidenceScore m (sim m) region }

/-- The comparison of `ranked_materials.sort(key=lambda x: x['confidence_score'],
reverse=True)`: descending confidence; a stable sort under this relation keeps
equal-confidence entries in storage order, as Python's sort does. -/
def confDescLE (a b : RankedMaterial) : Bool :=
  b.confidence_score ≤ a.confidence_score

/-- Response assembly (lines 94-109): `source` is
`material.source_url or "Internal database"`. -/
def toResponse (r : RankedMaterial) : MaterialPriceResponse :=
  { material_name := r.material.material_name
    description := r.material.description
    unit_price := r.material.unit_price
    unit := r.material.unit
    region := r.material.region
    similarity_score := r.similarity_score
    confidence_tier := getConfidenceTier r.confidence_score
    source := r.material.source_url.getD "Internal database"
    vendor := r.material.vendor
    quality_score := r.material.quality_score }

/-- `material_service.search_materials` after the storage fetch: empty
candidate set returns an empty list (line 70); otherwise score, sort by
confidence descending with a stable sort, truncate to `limit`, and convert
to the response type. -/
def searchMaterials (sim : MaterialRec → ℚ) (region : Option String)
    (limit : ℕ) (candidates : List MaterialRec) : List MaterialPriceResponse :=
  if candidates.isEmpty then []
  else
    (((rankCandidates sim region candidates).mergeSort confDescLE).take limit).map
      toResponse

/-! ### Task Extractor (`pricing_service._identify_tasks`,
`_material_belongs_to_task`, `_estimate_task_duration`) -/

/-- One entry of the task list built by `_identify_tasks`: the dict
`{'type': ..., 'materials': ..., 'duration': ...}`. -/
structure TaskData where
  taskType : String
  materials : List MaterialPriceResponse
  duration : String
deriving Repr, DecidableEq

/-- The classification keyword families of `_identify_tasks` (lines 196-202),
in dict order. -/
def taskKeywordTable : List (String × List String) :=
  [("tiling", ["tile", "carrelage", "bathroom", "shower", "wall"]),
   ("painting", ["paint", "peinture", "wall", "ceiling"]),
   ("plumbing", ["pipe", "tuyau", "water", "bathroom", "kitchen"]),
   ("electrical", ["wire", "fil", "electric", "switch", "outlet"]),
   ("carpentry", ["wood", "bois", "door", "window", "cabinet"])]

/-- The material-filter keyword families of `_material_belongs_to_task`
(lines 236-242), distinct from the classification families. -/
def materialTaskKeywords : List (String × List String) :=
  [("tiling", ["tile", "carrelage", "adhesive", "grout"]),
   ("painting", ["paint", "peinture", "primer", "brush"]),
   ("plumbing", ["pipe", "tuyau", "valve", "fitting"]),
   ("electrical", ["wire", "fil", "cable", "switch"]),
   ("carpentry", ["wood", "bois", "board", "screw"])]

/-- `pricing_service._material_belongs_to_task`: substring test of the
category keywords against the lowercased name-plus-description text. -/
def materialBelongsToTask (m : MaterialPriceResponse) (taskType : String) : Bool :=
  let materialText := pyLower (m.material_name ++ " " ++ m.description)
  let keywords := (materialTaskKeywords.lookup taskType).getD []
  keywords.any fun k => strContains materialText k

/-- The `base_durations` table of `_estimate_task_duration` (lines 249-256). -/
def baseDurations : List (String × String) :=
  [("tiling", "2 days"), ("painting", "1 day"), ("plumbing", "1 day"),
   ("electrical", "1 day"), ("carpentry", "2 days"), ("general", "1 day")]

/-- `pricing_service._estimate_task_duration`: fixed per-category base, and
for a material count above 5 the string rewrite `'1 day' -> '2 days'`
(or `'2 days' -> '3 days'`). -/
def estimateTaskDuration (taskType : String) (materialCount : ℕ) : String :=
  let duration := (baseDurations.lookup taskType).getD "1 day"
  if materialCount > 5 then
    if strContains duration "1 day" then pyReplace duration "1 day" "2 days"
    else if strContains duration "2 days" then pyReplace duration "2 days" "3 days"
    else duration
  else duration

/-- `pricing_service._identify_tasks`: a category is included when any
extracted keyword contains any of its family keywords; each included
category gets the accumulated materials filtered by
`_material_belongs_to_task`; when none is included, one fallback task of
type "general" holds all materials with a hard-coded duration of "1 day"
(lines 223-228). Python collects the matched categories into a set whose
iteration order is unspecified; the embedding keeps the table order. -/
def identifyTasks (keywords : List String)
    (materials : List MaterialPriceResponse) : List TaskData :=
  let identified := taskKeywordTable.filter fun p =>
    keywords.any fun kw => p.2.any fun k => strContains (pyLower kw) k
  let tasks := identified.map fun p =>
    let taskMaterials := materials.filter fun m => materialBelongsToTask m p.1
    TaskData.mk p.1 taskMaterials
      (estimateTaskDuration p.1 taskMaterials.length)
  if tasks.isEmpty then [TaskData.mk "general" materials "1 day"] else tasks

/-! ### Pricing Calculator (`pricing_service._calculate_task_pricing` and
the accumulation in `generate_proposal`) -/

/-- `MaterialItem` from `app/models.py`. -/
structure MaterialItem where
  material_name : String
  quantity : ℚ
  unit : String
  unit_price : ℚ
  total_price : ℚ
  confidence_score : ℚ
deriving Repr, DecidableEq

/-- `Task` from `app/models.py` (named apart from the Lean core type). -/
structure ProposalTask where
  label : String
  materials : List MaterialItem
  estimated_duration : String
  margin_protected_price : ℚ
  confidence_score : ℚ
  labor_cost : Option ℚ
deriving Repr, DecidableEq

/-- The `base_quantities` table of `_estimate_material_quantity`
(lines 343-350), in dict order; first substring match wins. -/
def baseQuantities : List (String × ℚ) :=
  [("tiles", 10), ("adhesives", 5), ("paints", 5),
   ("pipes", 10), ("wires", 20), ("wood", 5)]

/-- `pricing_service._estimate_material_quantity`: fixed lookup by substring
of the lowercased material name, default 1. -/
def estimateMaterialQuantity (materialName : String) : ℚ :=
  let name := pyLower materialName
  match baseQuantities.find? (fun p => strContains name p.1) with
  | some p => p.2
  | none => 1

/-- `pricing_service._parse_duration_to_hours`: numeric-prefix extraction;
"N day(s)" is N times 8 hours, "N hour(s)" is N, anything else (or a
missing number, the caught `IndexError`) is 8 hours. -/
def parseDurationToHours (duration : String) : ℚ :=
  if strContains (pyLower duration) "day" then
    match firstDigitRun duration.data with
    | some run => (digitRunToNat run : ℚ) * 8
    | none => 8
  else if strContains (pyLower duration) "hour" then
    match firstDigitRun duration.data with
    | some run => (digitRunToNat run : ℚ)
    | none => 8
  else 8

/-- `pricing_service._calculate_labor_cost`: parsed hours times the
category labor rate (default: the "general" rate, 40). -/
def calculateLaborCost (taskType : String) (duration : String) : ℚ :=
  parseDurationToHours duration * (laborRates.lookup taskType).getD 40

/-- `pricing_service._get_regional_multiplier`: exact-name lookup in the
regional multiplier table, default 1.0 when the region is unset, empty or
unknown. -/
def getRegionalMultiplier (region : Option String) : ℚ :=
  match region with
  | none => 1
  | some r => if r = "" then 1 else (regionalMultipliers.lookup r).getD 1

/-- The per-category confidence constants of `_calculate_task_confidence`
(lines 401-408). -/
def taskTypeConfidenceTable : List (String × ℚ) :=
  [("tiling", 8/10), ("painting", 9/10), ("plumbing", 7/10),
   ("electrical", 6/10), ("carpentry", 7/10), ("general", 1/2)]

/-- `pricing_service._calculate_task_confidence`: 0.3 with no materials,
else 0.7 times the mean material confidence plus 0.3 times the category
constant. -/
def calculateTaskConfidence (materials : List MaterialItem)
    (taskType : String) : ℚ :=
  if materials.isEmpty then 3/10
  else
    let avg := (materials.map (fun m => m.confidence_score)).sum /
      (materials.length : ℚ)
    avg * (7/10) + ((taskTypeConfidenceTable.lookup taskType).getD (1/2)) * (3/10)

/-- The display names of `_create_task_label` (lines 417-424). -/
def taskLabelTable : List (String × String) :=
  [("tiling", "Tile Installation"), ("painting", "Painting"),
   ("plumbing", "Plumbing Work"), ("electrical", "Electrical Work"),
   ("carpentry", "Carpentry Work"), ("general", "General Renovation")]

/-- `pricing_service._create_task_label`. -/
def createTaskLabel (taskType : String)
    (materials : List MaterialPriceResponse) : String :=
  let base := (taskLabelTable.lookup taskType).getD "General Work"
  if materials.isEmpty then base
  else base ++ " - " ++ ", ".intercalate ((materials.take 2).map
    (fun m => m.material_name))

/-- `pricing_service._calculate_task_pricing` (the non-exception path,
lines 277-326): each material becomes a `MaterialItem` whose `total_price`
is `unit_price * quantity` and whose `confidence_score` is the ranked
material's `similarity_score`; the regional multiplier is applied to the
task-level aggregated material and labor costs only. -/
def calculateTaskPricing (td : TaskData) (region : Option String) : ProposalTask :=
  let materialItems := td.materials.map fun m =>
    let quantity := estimateMaterialQuantity m.material_name
    { material_name := m.material_name
      quantity := quantity
      unit := m.unit
      unit_price := m.unit_price
      total_price := m.unit_price * quantity
      confidence_score := m.similarity_score : MaterialItem }
  let totalMaterialCost := (materialItems.map (fun i => i.total_price)).sum
  let laborCost := calculateLaborCost td.taskType td.duration
  let regionalMultiplier := getRegionalMultiplier region
  let adjustedMaterialCost := totalMaterialCost * regionalMultiplier
  let adjustedLaborCost := laborCost * regionalMultiplier
  let marginProtectedPrice := (adjustedMaterialCost + adjustedLaborCost) *
    (1 + baseMargin)
  { label := createTaskLabel td.taskType td.materials
    materials := materialItems
    estimated_duration := td.duration
    margin_protected_price := marginProtectedPrice
    confidence_score := calculateTaskConfidence materialItems td.taskType
    labor_cost := some adjustedLaborCost }

/-- `pricing_service._determine_vat_rate`: the new-build rate when the
project type is set, non-empty and contains "new" case-insensitively,
else the renovation rate. -/
def determineVatRate (projectType : Option String) : ℚ :=
  match projectType with
  | none => vatRenovation
  | some pt =>
    if pt ≠ "" && strContains (pyLower pt) "new" then vatNewBuild
    else vatRenovation

/-- Whether `project_type` contains "new" case-insensitively (absent means no). -/
def projectTypeHasNew (projectType : Option String) : Bool :=
  match projectType with
  | none => false
  | some pt => strContains (pyLower pt) "new"

/-- The labor term a task contributes to `total_labor_cost` in
`generate_proposal` (lines 68-69): Python's `if task.labor_cost:` skips an
absent or zero cost. -/
def laborContribution (t : ProposalTask) : ℚ :=
  match t.labor_cost with
  | none => 0
  | some l => if l = 0 then 0 else l

/-- The cost accumulation loop of `generate_proposal` (lines 59-69): prices
each task and accumulates the material and labor totals. -/
def accumulateCosts (taskDatas : List TaskData) (region : Option String) :
    List ProposalTask × ℚ × ℚ :=
  match taskDatas with
  | [] => ([], 0, 0)
  | td :: rest =>
    let t := calculateTaskPricing td region
    let acc := accumulateCosts rest region
    (t :: acc.1,
     (t.materials.map (fun m => m.total_price)).sum + acc.2.1,
     laborContribution t + acc.2.2)

/-- `pricing_service._calculate_overall_confidence`. -/
def calculateOverallConfidence (tasks : List ProposalTask) : ℚ :=
  if tasks.isEmpty then 0
  else (tasks.map (fun t => t.confidence_score)).sum / (tasks.length : ℚ)

/-- The totals a generated proposal carries. -/
structure ProposalTotals where
  tasks : List ProposalTask
  subtotal : ℚ
  vat_rate : ℚ
  vat_amount : ℚ
  margin_amount : ℚ
  total_estimate : ℚ
  confidence_score : ℚ
deriving Repr, DecidableEq

/-- Steps 2-4 of `pricing_service.generate_proposal` (lines 55-80): price
the extracted tasks, then `subtotal = materials + labor`,
`vat_amount = subtotal * vat_rate`, `margin_amount = subtotal * base_margin`,
`total_estimate = subtotal + vat_amount + margin_amount`. -/
def generateProposal (taskDatas : List TaskData) (region : Option String)
    (projectType : Option String) : ProposalTotals :=
  let acc := accumulateCosts taskDatas region
  let subtotal := acc.2.1 + acc.2.2
  let vatRate := determineVatRate projectType
  let vatAmount := subtotal * vatRate
  let marginAmount := subtotal * baseMargin
  { tasks := acc.1
    subtotal := subtotal
    vat_rate := vatRate
    vat_amount := vatAmount
    margin_amount := marginAmount
    total_estimate := subtotal + vatAmount + marginAmount
    confidence_score := calculateOverallConfidence acc.1 }

/-! ### Feedback Learner (`feedback_service.py`) -/

/-- `UserType` from `app/models.py`. -/
inductive UserType where
  | contractor
  | client
  | architect
deriving Repr, DecidableEq

/-- `VerdictType` from `app/models.py`. -/
inductive VerdictType where
  | accepted
  | rejected
  | overpriced
  | underpriced
  | modified
deriving Repr, DecidableEq

/-- The verdict weights of `_calculate_impact_score` (lines 111-117). -/
def verdictWeight : VerdictType → ℚ
  | .rejected => 1
  | .overpriced => 8/10
  | .underpriced => 8/10
  | .modified => 6/10
  | .accepted => 3/10

/-- The user-type weights of `_calculate_impact_score` (lines 122-126). -/
def userWeight : UserType → ℚ
  | .contractor => 1
  | .architect => 9/10
  | .client => 7/10

/-- The negative verdicts of `_calculate_impact_score` (line 132). -/
def isNegativeVerdict : VerdictType → Bool
  | .rejected => true
  | .overpriced => true
  | .underpriced => true
  | _ => false

/-- `feedback_service._calculate_impact_score` on a quote with confidence
`conf` and total estimate `total`: 0.5 times the verdict and user weights,
times `1 + (1 - conf)` for a negative verdict, times the value factor
`min(total / 1000, 2.0)`, clamped to the unit interval. -/
def calculateImpactScore (verdict : VerdictType) (user : UserType)
    (conf total : ℚ) : ℚ :=
  let base := (1/2) * verdictWeight verdict * userWeight user
  let base := if isNegativeVerdict verdict then base * (1 + (1 - conf)) else base
  let base := base * min (total / 1000) 2
  clamp01 base

/-- A `quotes` row, restricted to the fields the feedback path reads. -/
structure QuoteRec where
  id : String
  total_estimate : ℚ
  confidence_score : ℚ
  region : Option String
deriving Repr, DecidableEq

/-- A `feedback` row as created by `process_feedback`. -/
structure FeedbackRec where
  id : String
  quote_id : String
  user_type : UserType
  verdict : VerdictType
  comment : Option String
  impact_score : ℚ
deriving Repr, DecidableEq

/-- A `material_usage` row, restricted to the fields the feedback path reads. -/
structure MaterialUsageRec where
  quote_id : String
  material_id : ℕ
deriving Repr, DecidableEq

/-- A `vendor_reliability` row. -/
structure VendorRec where
  vendor_name : String
  reliability_score : ℚ
  total_quotes : ℕ
  accepted_quotes : ℕ
deriving Repr, DecidableEq

/-- The relational store as the feedback path sees it. -/
structure Store where
  quotes : List QuoteRec
  feedbacks : List FeedbackRec
  usages : List MaterialUsageRec
  vendors : List VendorRec
deriving Repr, DecidableEq

/-- The per-vendor read-modify-write of `_update_vendor_reliability`
(lines 259-278): insert a fresh row when absent (defaults 0.5 / 0 / 0),
increment `total_quotes`, increment `accepted_quotes` for an accepted
verdict, and set `reliability_score = accepted_quotes / total_quotes`. -/
def applyVendorFeedback (vendors : List VendorRec) (vendor : String)
    (accepted : Bool) : List VendorRec :=
  let present := vendors.any fun v => v.vendor_name = vendor
  let vendors := if present then vendors
    else vendors ++ [{ vendor_name := vendor
                       reliability_score := 1/2
                       total_quotes := 0
                       accepted_quotes := 0 }]
  vendors.map fun v =>
    if v.vendor_name = vendor then
      let total : ℕ := v.total_quotes + 1
      let acceptedCount : ℕ := if accepted then v.accepted_quotes + 1
        else v.accepted_quotes
      { v with total_quotes := total
               accepted_quotes := acceptedCount
               reliability_score := (acceptedCount : ℚ) / (total : ℚ) }
    else v

/-- The vendor set collected for a quote by `_update_vendor_reliability`
(lines 251-256): the loop over the quote's material-usage rows is a
placeholder (`pass`) in the source, so no vendor is ever collected. -/
def quoteVendors (usages : List MaterialUsageRec) : List String :=
  let _ := usages
  []

/-- `feedback_service._update_vendor_reliability`: applies the per-vendor
update to every vendor tied to the quote's materials. -/
def updateVendorReliability (usages : List MaterialUsageRec)
    (verdict : VerdictType) (vendors : List VendorRec) : List VendorRec :=
  (quoteVendors usages).foldl
    (fun vs v => applyVendorFeedback vs v (verdict = .accepted)) vendors

/-- `feedback_service.process_feedback` (lines 43-98): the referenced quote
must exist (`raise ValueError(f"Quote {quote_id} not found")` otherwise,
line 49); on success a feedback row is appended and the learning updates
run. The generated insight text is irrelevant to the stored state. -/
def processFeedback (store : Store) (feedbackId quoteId : String)
    (user : UserType) (verdict : VerdictType) (comment : Option String) :
    Except String Store :=
  match store.quotes.find? (fun q => q.id = quoteId) with
  | none => .error ("Quote " ++ quoteId ++ " not found")
  | some quote =>
    let impact := calculateImpactScore verdict user quote.confidence_score
      quote.total_estimate
    let fb : FeedbackRec :=
      { id := feedbackId, quote_id := quoteId, user_type := user,
        verdict := verdict, comment := comment, impact_score := impact }
    let quoteUsages := store.usages.filter fun u => u.quote_id = quoteId
    .ok { store with
          feedbacks := store.feedbacks ++ [fb]
          vendors := updateVendorReliability quoteUsages verdict store.vendors }

/-- The transaction wrapper around `process_feedback`: `db.commit()` on
success, `db.rollback()` then re-raise on failure (lines 78 and 95-98),
so an error leaves the store as it was. -/
def runProcessFeedback (store : Store) (feedbackId quoteId : String)
    (user : UserType) (verdict : VerdictType) (comment : Option String) :
    Store × Except String Unit :=
  match processFeedback store feedbackId quoteId user verdict comment with
  | .ok newStore => (newStore, .ok ())
  | .error e => (store, .error e)

/-! ### Concrete data used by witnesses and counterexamples -/

/-- Whether a task produced by `identifyTasks` has the duration the
per-category estimator assigns: a category task must carry
`estimateTaskDuration`, the fallback task always carries "1 day". -/
def durationConsistent (t : TaskData) : Bool :=
  if t.taskType = "general" then t.duration == "1 day"
  else t.duration == estimateTaskDuration t.taskType t.materials.length

/-- A ranked tile material located in Corse (regional multiplier 1.2). -/
def corseTiles : MaterialPriceResponse :=
  { material_name := "Tiles Premium"
    description := "ceramic"
    unit_price := 100
    unit := "m2"
    region := "Corse"
    similarity_score := 1
    confidence_tier := .medium
    source := "catalog"
    vendor := none
    quality_score := none }

/-- A stored material with in-band price, no vendor and no region request:
its combined confidence score differs from any similarity score fed in. -/
def plainMaterial : MaterialRec :=
  { material_name := "generic item"
    description := "plain"
    unit_price := 1
    unit := "piece"
    region := "Paris"
    vendor := none
    quality_score := none
    source_url := none }

/-- A ranked material whose name and description match no category keyword
and no quantity keyword. -/
def neutralItem (n : ℕ) : MaterialPriceResponse :=
  { material_name := "item" ++ toString n
    description := "misc"
    unit_price := 1
    unit := "piece"
    region := "Corse"
    similarity_score := 1
    confidence_tier := .low
    source := "catalog"
    vendor := none
    quality_score := none }

/-- Six materials matching no category keyword: enough to cross the
material-count threshold of the duration estimator. -/
def sixNeutralItems : List MaterialPriceResponse :=
  [neutralItem 1, neutralItem 2, neutralItem 3,
   neutralItem 4, neutralItem 5, neutralItem 6]

/-- A store with no quotes at all. -/
def emptyStore : Store :=
  { quotes := [], feedbacks := [], usages := [], vendors := [] }

/-! ## Supporting lemmas -/

theorem clamp01_nonneg (x : ℚ) : 0 ≤ clamp01 x := le_max_left 0 _

theorem clamp01_le_one (x : ℚ) : clamp01 x ≤ 1 :=
  max_le (by norm_num) (min_le_left 1 x)

theorem clamp01_mono {x y : ℚ} (h : x ≤ y) : clamp01 x ≤ clamp01 y :=
  max_le_max le_rfl (min_le_min le_rfl h)

theorem clamp01_of_mem {x : ℚ} (h0 : 0 ≤ x) (h1 : x ≤ 1) : clamp01 x = x := by
  rw [clamp01, min_eq_right h1, max_eq_right h0]

theorem confDescLE_trans (a b c : RankedMaterial) :
    confDescLE a b → confDescLE b c → confDescLE a c := by
  simp only [confDescLE, decide_eq_true_eq]
  exact fun h1 h2 => le_trans h2 h1

theorem confDescLE_total (a b : RankedMaterial) :
    confDescLE a b || confDescLE b a := by
  simp only [confDescLE, Bool.or_eq_true, decide_eq_true_eq]
  exact le_total _ _

/-- The stable sort keeps the entries of any fixed confidence value in the
order in which storage returned them. -/
theorem mergeSort_confDesc_stable (l : List RankedMaterial) (c : ℚ) :
    (l.mergeSort confDescLE).filter (fun r => decide (r.confidence_score = c))
      = l.filter (fun r => decide (r.confidence_score = c)) := by
  set p : RankedMaterial → Bool := fun r => decide (r.confidence_score = c) with hp
  have hpair : (l.filter p).Pairwise (fun a b => confDescLE a b = true) := by
    apply List.pairwise_of_forall_mem_list
    intro a ha b hb
    have ha' := (List.mem_filter.mp ha).2
    have hb' := (List.mem_filter.mp hb).2
    simp only [hp, decide_eq_true_eq] at ha' hb'
    simp only [confDescLE, ha', hb', decide_eq_true_eq, le_refl]
  have hsub : List.Sublist (l.filter p) (l.mergeSort confDescLE) :=
    List.sublist_mergeSort confDescLE_trans confDescLE_total hpair
      (List.filter_sublist l)
  have hsub2 : List.Sublist ((l.filter p).filter p)
      ((l.mergeSort confDescLE).filter p) :=
    hsub.filter p
  rw [List.filter_filter] at hsub2
  have hself : (fun a => p a && p a) = p := by
    funext a
    exact Bool.and_self (p a)
  rw [hself] at hsub2
  have hlen : ((l.mergeSort confDescLE).filter p).length = (l.filter p).length :=
    ((l.mergeSort_perm confDescLE).filter p).length_eq
  exact (hsub2.eq_of_length hlen.symm).symm

theorem verdictWeight_nonneg (v : VerdictType) : 0 ≤ verdictWeight v := by
  cases v <;> norm_num [verdictWeight]

theorem userWeight_pos (u : UserType) : 0 < userWeight u := by
  cases u <;> norm_num [userWeight]

theorem userWeight_le_one (u : UserType) : userWeight u ≤ 1 := by
  cases u <;> norm_num [userWeight]

/-- The Python guard `if task.labor_cost:` adds the same amount to the labor
total as the plain labor cost: skipping zero changes nothing. -/
theorem laborContribution_eq (t : ProposalTask) :
    laborContribution t = t.labor_cost.getD 0 := by
  rw [laborContribution]
  cases t.labor_cost with
  | none => rfl
  | some l => by_cases h : l = 0 <;> simp [h]

theorem sum_map_add (l : List TaskData) (f g : TaskData → ℚ) :
    (l.map fun x => f x + g x).sum = (l.map f).sum + (l.map g).sum := by
  induction l with
  | nil => simp
  | cons x xs ih =>
    simp only [List.map_cons, List.sum_cons, ih]
    ring

/-- Closed form of the accumulation loop of `generate_proposal`. -/
theorem accumulateCosts_eq (tds : List TaskData) (region : Option String) :
    accumulateCosts tds region =
      (tds.map fun td => calculateTaskPricing td region,
       (tds.map fun td =>
         (((calculateTaskPricing td region).materials.map
           fun m => m.total_price).sum)).sum,
       (tds.map fun td => laborContribution (calculateTaskPricing td region)).sum)
    := by
  induction tds with
  | nil => simp [accumulateCosts]
  | cons td rest ih => simp [accumulateCosts, ih]

/-- `_determine_vat_rate` chooses the new-build rate exactly when the
project type contains "new" case-insensitively. -/
theorem determineVatRate_eq (pt : Option String) :
    determineVatRate pt =
      if projectTypeHasNew pt then vatNewBuild else vatRenovation := by
  cases pt with
  | none => rfl
  | some s =>
    by_cases h : s = ""
    · subst h
      simp [determineVatRate, projectTypeHasNew,
        show strContains (pyLower "") "new" = false from rfl]
    · simp [determineVatRate, projectTypeHasNew, bne_iff_ne, h]

theorem estimateTaskDuration_tiling (n : ℕ) :
    estimateTaskDuration "tiling" n = if n > 5 then "3 days" else "2 days" := by
  by_cases h : n > 5 <;> simp [estimateTaskDuration, h] <;> decide

theorem estimateTaskDuration_painting (n : ℕ) :
    estimateTaskDuration "painting" n = if n > 5 then "2 days" else "1 day" := by
  by_cases h : n > 5 <;> simp [estimateTaskDuration, h] <;> decide

theorem estimateTaskDuration_plumbing (n : ℕ) :
    estimateTaskDuration "plumbing" n = if n > 5 then "2 days" else "1 day" := by
  by_cases h : n > 5 <;> simp [estimateTaskDuration, h] <;> decide

theorem estimateTaskDuration_electrical (n : ℕ) :
    estimateTaskDuration "electrical" n = if n > 5 then "2 days" else "1 day" := by
  by_cases h : n > 5 <;> simp [estimateTaskDuration, h] <;> decide

theorem estimateTaskDuration_carpentry (n : ℕ) :
    estimateTaskDuration "carpentry" n = if n > 5 then "3 days" else "2 days" := by
  by_cases h : n > 5 <;> simp [estimateTaskDuration, h] <;> decide

theorem estimateTaskDuration_general (n : ℕ) :
    estimateTaskDuration "general" n = if n > 5 then "2 days" else "1 day" := by
  by_cases h : n > 5 <;> simp [estimateTaskDuration, h] <;> decide

/-! ## Claims -/

/-- C1 (counterexample): pricing a tile material of unit price 100 in Corse
(multiplier 1.2, different from 1.0) yields a `MaterialItem` with quantity 10
whose `total_price` is the plain 1000 = 10 × 100 and not the regionally
adjusted 1200, so `total_price` is not quantity × unit price with the
region's multiplier applied. -/
theorem C1_counterexample :
    getRegionalMultiplier (some "Corse") = 6/5 ∧
    (6/5 : ℚ) ≠ 1 ∧
    ((calculateTaskPricing (TaskData.mk "tiling" [corseTiles] "2 days")
        (some "Corse")).materials.map fun i => (i.quantity, i.unit_price,
          i.total_price))
      = [(10, 100, 1000)] ∧
    (1000 : ℚ) ≠ 10 * 100 * (6/5) := by
  have hq : estimateMaterialQuantity "Tiles Premium" = 10 := by decide
  refine ⟨?_, by norm_num, ?_, by norm_num⟩
  · simp [getRegionalMultiplier, regionalMultipliers, List.lookup]; norm_num
  · simp [calculateTaskPricing, corseTiles, hq]; norm_num

/-- C1 (amended): every `MaterialItem` of a priced task has
`total_price = unit_price × quantity` with no regional adjustment; the
region's multiplier is instead applied to the task-level aggregates — the
adjusted labor cost and the margin-protected price. -/
theorem C1_amended (td : TaskData) (region : Option String) :
    ((calculateTaskPricing td region).materials.map fun i => i.total_price)
      = ((calculateTaskPricing td region).materials.map
          fun i => i.unit_price * i.quantity) ∧
    (calculateTaskPricing td region).labor_cost
      = some (calculateLaborCost td.taskType td.duration *
          getRegionalMultiplier region) ∧
    (calculateTaskPricing td region).margin_protected_price
      = (((calculateTaskPricing td region).materials.map
            fun i => i.total_price).sum * getRegionalMultiplier region
          + calculateLaborCost td.taskType td.duration *
            getRegionalMultiplier region) * (1 + baseMargin) := by
  refine ⟨?_, rfl, rfl⟩
  simp [calculateTaskPricing, List.map_map]

/-- C2: for every generated proposal,
`total_estimate = subtotal + vat_amount + margin_amount` exactly, with
`vat_amount = subtotal × vat_rate`, `margin_amount = subtotal × base_margin`,
`subtotal` the sum over the tasks of material plus labor cost, and the VAT
rate is the new-build rate exactly when the project type contains "new"
case-insensitively, else the renovation rate. -/
theorem C2_proposal_totals (tds : List TaskData) (region : Option String)
    (pt : Option String) :
    (generateProposal tds region pt).total_estimate
      = (generateProposal tds region pt).subtotal
        + (generateProposal tds region pt).vat_amount
        + (generateProposal tds region pt).margin_amount ∧
    (generateProposal tds region pt).vat_amount
      = (generateProposal tds region pt).subtotal
        * (generateProposal tds region pt).vat_rate ∧
    (generateProposal tds region pt).margin_amount
      = (generateProposal tds region pt).subtotal * baseMargin ∧
    (generateProposal tds region pt).subtotal
      = ((generateProposal tds region pt).tasks.map
          fun t => ((t.materials.map fun m => m.total_price).sum
            + t.labor_cost.getD 0)).sum ∧
    (generateProposal tds region pt).vat_rate
      = (if projectTypeHasNew pt then vatNewBuild else vatRenovation) ∧
    ((generateProposal tds region pt).vat_rate = vatNewBuild
      ↔ projectTypeHasNew pt = true) := by
  refine ⟨rfl, rfl, rfl, ?_, ?_, ?_⟩
  · show (accumulateCosts tds region).2.1 + (accumulateCosts tds region).2.2
      = ((accumulateCosts tds region).1.map
          fun t => ((t.materials.map fun m => m.total_price).sum
            + t.labor_cost.getD 0)).sum
    rw [accumulateCosts_eq]
    simp only [List.map_map, Function.comp_def]
    rw [sum_map_add]
    congr 1
    exact congrArg List.sum (List.map_congr_left fun td _ =>
      laborContribution_eq (calculateTaskPricing td region))
  · exact determineVatRate_eq pt
  · rw [show (generateProposal tds region pt).vat_rate = determineVatRate pt
      from rfl, determineVatRate_eq pt]
    cases h : projectTypeHasNew pt <;>
      simp [h, vatNewBuild, vatRenovation] ; norm_num

/-- C3: the Confidence Engine's output lies in the unit interval for every
material, every region pair, every unit price and vendor, and every
similarity in the unit interval. -/
theorem C3_confidence_in_unit_interval (m : MaterialRec) (similarity : ℚ)
    (region : Option String) (_h0 : 0 ≤ similarity) (_h1 : similarity ≤ 1) :
    0 ≤ calculateConfidenceScore m similarity region ∧
    calculateConfidenceScore m similarity region ≤ 1 :=
  ⟨clamp01_nonneg _, clamp01_le_one _⟩

/-- Witness for C3 at a concrete material and similarity 1/2. -/
theorem C3_witness :
    (0 : ℚ) ≤ 1/2 ∧ (1/2 : ℚ) ≤ 1 ∧
    (0 ≤ calculateConfidenceScore plainMaterial (1/2) none ∧
     calculateConfidenceScore plainMaterial (1/2) none ≤ 1) :=
  ⟨by norm_num, by norm_num,
   C3_confidence_in_unit_interval plainMaterial (1/2) none
     (by norm_num) (by norm_num)⟩

/-- C4: material search returns at most `limit` results; the ranked list is
sorted by confidence descending; the sort is stable — the entries of any
fixed confidence value keep the order in which storage returned them; and
zero candidates from storage yield an empty result rather than an error
(the embedding is a total function, so no exception is possible). -/
theorem C4_search_ranking (sim : MaterialRec → ℚ) (region : Option String)
    (limit : ℕ) (candidates : List MaterialRec) :
    (searchMaterials sim region limit candidates).length ≤ limit ∧
    ((rankCandidates sim region candidates).mergeSort confDescLE).Pairwise
      (fun a b => b.confidence_score ≤ a.confidence_score) ∧
    (∀ c : ℚ,
      ((rankCandidates sim region candidates).mergeSort confDescLE).filter
          (fun r => decide (r.confidence_score = c))
        = (rankCandidates sim region candidates).filter
            (fun r => decide (r.confidence_score = c))) ∧
    searchMaterials sim region limit [] = [] := by
  refine ⟨?_, ?_, fun c => mergeSort_confDesc_stable _ c, rfl⟩
  · rw [searchMaterials]
    split
    · simp
    · rw [List.length_map, List.length_take]
      exact min_le_left _ _
  · exact (List.sorted_mergeSort confDescLE_trans confDescLE_total _).imp
      fun h => of_decide_eq_true h

/-- C5: the vendor-reliability update of the feedback path is a no-op on the
vendor store for every input — the loop that should collect the vendors tied
to the quote's materials is left as a placeholder in the source, so the
collected vendor set is always empty and no counter is ever incremented. -/
theorem C5_vendor_update_noop (usages : List MaterialUsageRec)
    (verdict : VerdictType) (vendors : List VendorRec) :
    updateVendorReliability usages verdict vendors = vendors := rfl

/-- C6: feedback against a quote id with no matching quote yields the
"not found" error, propagated to the caller, and the rolled-back store is
unchanged — in particular no feedback record is created. -/
theorem C6_feedback_unknown_quote (store : Store) (feedbackId quoteId : String)
    (user : UserType) (verdict : VerdictType) (comment : Option String)
    (h : store.quotes.find? (fun q => q.id = quoteId) = none) :
    runProcessFeedback store feedbackId quoteId user verdict comment
      = (store, .error ("Quote " ++ quoteId ++ " not found")) ∧
    (runProcessFeedback store feedbackId quoteId user verdict comment).1.feedbacks
      = store.feedbacks := by
  have hrun : runProcessFeedback store feedbackId quoteId user verdict comment
      = (store, .error ("Quote " ++ quoteId ++ " not found")) := by
    rw [runProcessFeedback, processFeedback, h]
  exact ⟨hrun, by rw [hrun]⟩

/-- Witness for C6 at the empty store and quote id "q1". -/
theorem C6_witness :
    runProcessFeedback emptyStore "f1" "q1" UserType.contractor
        VerdictType.rejected none
      = (emptyStore, .error ("Quote " ++ "q1" ++ " not found")) ∧
    (runProcessFeedback emptyStore "f1" "q1" UserType.contractor
        VerdictType.rejected none).1.feedbacks = emptyStore.feedbacks :=
  C6_feedback_unknown_quote emptyStore "f1" "q1" UserType.contractor
    VerdictType.rejected none rfl

/-- C7 (counterexample): on a quote of total value 0 the value factor
`min(total/1000, 2)` is 0, so the impact scores of "rejected" and
"accepted" coincide (both 0) for identical quote and user inputs — the
strict inequality of the claim fails. -/
theorem C7_counterexample :
    calculateImpactScore VerdictType.rejected UserType.contractor (1/2) 0
      = calculateImpactScore VerdictType.accepted UserType.contractor (1/2) 0 := by
  norm_num [calculateImpactScore, verdictWeight, userWeight, isNegativeVerdict,
    clamp01]

/-- C7 (amended): the impact score is monotonically non-decreasing in the
quote's total value (in particular up to the 2× value cap), and for
identical quote and user inputs with a strictly positive total value the
"rejected" impact score strictly exceeds the "accepted" one. -/
theorem C7_amended :
    (∀ (v : VerdictType) (u : UserType) (conf t1 t2 : ℚ),
      0 ≤ conf → conf ≤ 1 → t1 ≤ t2 →
      calculateImpactScore v u conf t1 ≤ calculateImpactScore v u conf t2) ∧
    (∀ (u : UserType) (conf total : ℚ),
      0 ≤ conf → conf ≤ 1 → 0 < total →
      calculateImpactScore VerdictType.accepted u conf total
        < calculateImpactScore VerdictType.rejected u conf total) := by
  constructor
  · intro v u conf t1 t2 _hc0 hc1 h12
    simp only [calculateImpactScore]
    apply clamp01_mono
    have hvw := verdictWeight_nonneg v
    have huw := (userWeight_pos u).le
    have hfac : (0:ℚ) ≤ 1 + (1 - conf) := by linarith
    have hc : (0:ℚ) ≤
        (if isNegativeVerdict v then
          1/2 * verdictWeight v * userWeight u * (1 + (1 - conf))
         else 1/2 * verdictWeight v * userWeight u) := by
      split
      · exact mul_nonneg (mul_nonneg (mul_nonneg (by norm_num) hvw) huw) hfac
      · exact mul_nonneg (mul_nonneg (by norm_num) hvw) huw
    refine mul_le_mul_of_nonneg_left (min_le_min ?_ le_rfl) hc
    gcongr
  · intro u conf total _hc0 hc1 ht
    have ha : calculateImpactScore VerdictType.accepted u conf total
        = clamp01 (1/2 * (3/10) * userWeight u * min (total/1000) 2) := rfl
    have hr : calculateImpactScore VerdictType.rejected u conf total
        = clamp01 (1/2 * 1 * userWeight u * (1 + (1 - conf)) *
            min (total/1000) 2) := rfl
    rw [ha, hr]
    have huw0 : 0 < userWeight u := userWeight_pos u
    have huw1 : userWeight u ≤ 1 := userWeight_le_one u
    have hm0 : 0 < min (total/1000) 2 :=
      lt_min (by positivity) (by norm_num)
    have hm2 : min (total/1000) 2 ≤ 2 := min_le_right _ _
    have hfac : (1:ℚ) ≤ 1 + (1 - conf) := by linarith
    have huwm : 0 < userWeight u * min (total/1000) 2 := mul_pos huw0 hm0
    have haval0 : 0 ≤ 1/2 * (3/10) * userWeight u * min (total/1000) 2 := by
      positivity
    have haval1 : 1/2 * (3/10) * userWeight u * min (total/1000) 2 ≤ 1 := by
      nlinarith
    rw [clamp01_of_mem haval0 haval1]
    have hlt : 1/2 * (3/10) * userWeight u * min (total/1000) 2
        < 1/2 * userWeight u * min (total/1000) 2 := by nlinarith
    have hge : 1/2 * userWeight u * min (total/1000) 2
        ≤ 1/2 * 1 * userWeight u * (1 + (1 - conf)) * min (total/1000) 2 := by
      nlinarith
    rcases le_or_lt (1/2 * 1 * userWeight u * (1 + (1 - conf)) *
        min (total/1000) 2) 1 with hle | hgt
    · have hnn : 0 ≤ 1/2 * 1 * userWeight u * (1 + (1 - conf)) *
          min (total/1000) 2 := by nlinarith
      rw [clamp01_of_mem hnn hle]
      linarith
    · rw [clamp01, min_eq_left hgt.le, max_eq_right (by norm_num : (0:ℚ) ≤ 1)]
      nlinarith

/-- Witness for C7: monotonicity at totals 100 ≤ 200 and strictness at
total 500, both with confidence 0 and a contractor user. -/
theorem C7_witness :
    calculateImpactScore VerdictType.rejected UserType.contractor 0 100
      ≤ calculateImpactScore VerdictType.rejected UserType.contractor 0 200 ∧
    calculateImpactScore VerdictType.accepted UserType.contractor 0 500
      < calculateImpactScore VerdictType.rejected UserType.contractor 0 500 :=
  ⟨C7_amended.1 VerdictType.rejected UserType.contractor 0 100 200
      le_rfl zero_le_one (by norm_num),
   C7_amended.2 UserType.contractor 0 500 le_rfl zero_le_one (by norm_num)⟩

/-- C8 (counterexample): when no category keyword matches, the synthesized
fallback task of type "general" holds all six retrieved materials, whose
count 6 exceeds 5, yet its duration is the hard-coded "1 day" and not the
bumped "2 days" the per-category estimator would assign. -/
theorem C8_counterexample :
    identifyTasks ["zzz"] sixNeutralItems
      = [TaskData.mk "general" sixNeutralItems "1 day"] ∧
    sixNeutralItems.length > 5 ∧
    estimateTaskDuration "general" sixNeutralItems.length = "2 days" ∧
    "1 day" ≠ "2 days" :=
  ⟨by decide, by decide, by decide, by decide⟩

/-- C8 (amended): every category task extracted by `identifyTasks` carries
the duration of the fixed per-category estimator (base of 2 days for tiling
and carpentry, 1 day otherwise, bumped by one day when the task's material
count exceeds 5), while the synthesized fallback task of type "general"
always carries "1 day" regardless of its material count. -/
theorem C8_amended (keywords : List String)
    (materials : List MaterialPriceResponse) (n : ℕ) :
    (identifyTasks keywords materials).all durationConsistent = true ∧
    estimateTaskDuration "tiling" n = (if n > 5 then "3 days" else "2 days") ∧
    estimateTaskDuration "painting" n = (if n > 5 then "2 days" else "1 day") ∧
    estimateTaskDuration "plumbing" n = (if n > 5 then "2 days" else "1 day") ∧
    estimateTaskDuration "electrical" n = (if n > 5 then "2 days" else "1 day") ∧
    estimateTaskDuration "carpentry" n = (if n > 5 then "3 days" else "2 days") ∧
    estimateTaskDuration "general" n = (if n > 5 then "2 days" else "1 day") := by
  refine ⟨?_, estimateTaskDuration_tiling n, estimateTaskDuration_painting n,
    estimateTaskDuration_plumbing n, estimateTaskDuration_electrical n,
    estimateTaskDuration_carpentry n, estimateTaskDuration_general n⟩
  simp only [identifyTasks]
  split
  · simp [durationConsistent]
  · simp only [List.all_eq_true]
    intro t ht
    obtain ⟨p, hp, rfl⟩ := List.mem_map.mp ht
    have hmem : p ∈ taskKeywordTable := List.mem_of_mem_filter hp
    simp only [taskKeywordTable, List.mem_cons, List.not_mem_nil,
      or_false] at hmem
    rcases hmem with h | h | h | h | h <;> subst h <;>
      simp [durationConsistent]

/-- C9: the estimated quantity of a priced material is the fixed
first-match lookup on substrings of the lowercased material name
(tiles 10, adhesives 5, paints 5, pipes 10, wires 20, wood 5) with
default 1 when no category substring occurs; in particular a name
containing the tile substring receives quantity 10. -/
theorem C9_material_quantity (name : String) :
    estimateMaterialQuantity name =
      (if strContains (pyLower name) "tiles" then 10
       else if strContains (pyLower name) "adhesives" then 5
       else if strContains (pyLower name) "paints" then 5
       else if strContains (pyLower name) "pipes" then 10
       else if strContains (pyLower name) "wires" then 20
       else if strContains (pyLower name) "wood" then 5
       else 1) := by
  simp only [estimateMaterialQuantity]
  cases h1 : strContains (pyLower name) "tiles" <;>
  cases h2 : strContains (pyLower name) "adhesives" <;>
  cases h3 : strContains (pyLower name) "paints" <;>
  cases h4 : strContains (pyLower name) "pipes" <;>
  cases h5 : strContains (pyLower name) "wires" <;>
  cases h6 : strContains (pyLower name) "wood" <;>
    simp [baseQuantities, List.find?, h1, h2, h3, h4, h5, h6]

/-- C10: each `MaterialItem` of a priced task carries the ranked material's
similarity score as its confidence score; the search responses likewise
carry the similarity score (the response type has no field for the combined
confidence, which only selects the order and the discrete tier); and the
combined confidence really differs from the similarity score in general. -/
theorem C10_item_confidence_is_similarity :
    (∀ (td : TaskData) (region : Option String),
      ((calculateTaskPricing td region).materials.map
          fun i => i.confidence_score)
        = td.materials.map fun m => m.similarity_score) ∧
    (∀ (sim : MaterialRec → ℚ) (region : Option String) (limit : ℕ)
        (candidates : List MaterialRec),
      ((searchMaterials sim region limit candidates).map
          fun r => r.similarity_score)
        = ((((rankCandidates sim region candidates).mergeSort
              confDescLE).take limit).map fun r => r.similarity_score)) ∧
    calculateConfidenceScore plainMaterial (1/2) none < 1/2 := by
  refine ⟨?_, ?_, ?_⟩
  · intro td region
    simp [calculateTaskPricing, List.map_map]
  · intro sim region limit candidates
    by_cases h : candidates.isEmpty
    · have hnil : candidates = [] := by simpa [List.isEmpty_iff] using h
      subst hnil
      simp [searchMaterials, rankCandidates]
    · simp [searchMaterials, h, List.map_map, Function.comp_def, toResponse]
  · have hval : calculateConfidenceScore plainMaterial (1/2) none
        = clamp01 (19/40) := by
      have hx : (1/2 : ℚ) * semanticWeight
          + regionalScoreRaw none plainMaterial.region * regionalWeight
          + validatePriceRange plainMaterial.unit_price * priceWeight
          + getVendorReliability plainMaterial.vendor * vendorWeight
          = 19/40 := by
        norm_num [semanticWeight, regionalWeight, priceWeight, vendorWeight,
          regionalScoreRaw, validatePriceRange, getVendorReliability,
          plainMaterial]
      exact congrArg clamp01 hx
    rw [hval, clamp01_of_mem (by norm_num) (by norm_num)]
    norm_num

end Donizo
